import Mathlib

/-!
Verification development for the bulk-barcode-generator repository.

The definitions below are a shallow embedding of the TypeScript source:
JavaScript numbers are modelled as rationals, JavaScript strings as lists
of characters, fallible functions as Except / Option, and the external
collaborators (JsBarcode, bwip-js, sharp, fetch) as explicit parameters
or outcome values.
-/

namespace BulkBarcode

/-- JavaScript strings are modelled as lists of characters; the index
arithmetic of String.prototype.slice acts on these. -/
abbrev JSStr := List Char

/-- Rounding of Math.round: half-up rounding toward positive infinity. -/
def jsRound (x : ℚ) : ℤ := ⌊x + 1/2⌋

/-- Barcode type enumeration from src/frontend types and shared schemas. -/
inductive BarcodeType
  | code128
  | qr
  | ean13
  | ean8
  | upca
  | code39
deriving DecidableEq, Repr

/-- Measurement unit enumeration. -/
inductive UnitType
  | cm
  | inches
deriving DecidableEq, Repr

/-- Orientation enumeration. -/
inductive OrientationType
  | horizontal
  | vertical
deriving DecidableEq, Repr

/-- Side from which ignored characters are removed; the source literals
are the strings "start" and "end". -/
inductive DigitPosition
  | start
  | stop
deriving DecidableEq, Repr

/-- Physical dimensions of one barcode variant. -/
structure Dimensions where
  width : ℚ
  height : ℚ
  unit : UnitType
deriving DecidableEq, Repr

/-- Font configuration; autoAdjustFont is an optional boolean in the source. -/
structure FontConfig where
  family : JSStr
  size : ℚ
  autoAdjustFont : Option Bool := none
deriving DecidableEq, Repr

/-- Configuration of the ignore-digits truncation. -/
structure IgnoreDigits where
  enabled : Bool
  position : DigitPosition
  count : ℕ
deriving DecidableEq, Repr

/-- Rendering options nested inside a barcode configuration. -/
structure BarcodeOptions where
  showText : Bool
  stretch : Bool
  ignoreDigits : Option IgnoreDigits := none
deriving DecidableEq, Repr

/-- Full barcode configuration from the shared types. -/
structure BarcodeConfig where
  type : BarcodeType
  dimensions : Dimensions
  font : FontConfig
  options : BarcodeOptions
  dualMode : Bool
  dualDimensions : Option Dimensions := none
  dualFont : Option FontConfig := none
  orientation : Option OrientationType := none
  continuousMode : Option Bool := none
deriving DecidableEq, Repr

/-- Validation bound on the ignore-digits count from the shared zod schema
ignoreDigitsSchema: an integer at least 0 and at most 20. -/
def ignoreDigitsCountValid (count : ℤ) : Bool :=
  decide (0 ≤ count) && decide (count ≤ 20)

/-- Truncation step shared by the backend and frontend generators.

The source is:
  if (!ignoreDigits || !ignoreDigits.enabled) return data
  if (position === "start") return data.slice(count)
  else return data.slice(0, -count)

JavaScript slice semantics for a nonnegative count: data.slice(count)
drops the first count characters (clamped at the length), while
data.slice(0, -count) takes characters up to index length - count
clamped at 0 - except that when count is 0 the second argument is the
number 0 itself, so the call is data.slice(0, 0), the empty string. -/
def processData (data : JSStr) (ignoreDigits : Option IgnoreDigits) : JSStr :=
  match ignoreDigits with
  | none => data
  | some ig =>
    if ig.enabled = false then data
    else
      match ig.position with
      | .start => data.drop ig.count
      | .stop => if ig.count = 0 then [] else data.take (data.length - ig.count)

/-- Conversion of cm or inches to pixels at 96 DPI (convertToPixels in
both generator sources). -/
def convertToPixels (value : ℚ) (unit : UnitType) : ℤ :=
  match unit with
  | .cm => jsRound (value / (127/50) * 96)
  | .inches => jsRound (value * 96)

namespace Backend

/-- Flat option record of the backend barcode generator
(src/backend/src/services/barcodeGenerator.ts). -/
structure BarcodeOptions where
  type : BarcodeType
  width : ℚ
  height : ℚ
  unit : UnitType
  showText : Bool
  stretch : Bool
  fontFamily : JSStr
  fontSize : ℚ
  autoAdjustFont : Option Bool := none
  ignoreDigits : Option IgnoreDigits := none
  orientation : Option OrientationType := none
deriving DecidableEq, Repr

/-- Height normalised to centimeters: options.unit === cm ? height :
height * 2.54. -/
def heightCm (o : BarcodeOptions) : ℚ :=
  if o.unit = .cm then o.height else o.height * (127/50)

/-- Small-barcode classification: heightCm < 1. -/
def isSmallBarcode (o : BarcodeOptions) : Bool :=
  decide (heightCm o < 1)

/-- Auto-adjust flag: true if autoAdjustFont is undefined or explicitly
true (options.autoAdjustFont !== false). -/
def shouldAutoAdjust (o : BarcodeOptions) : Bool :=
  o.autoAdjustFont ≠ some false

/-- Font size handed to bwip-js by the backend generator: for small
barcodes with auto-adjust the source computes
Math.min(options.fontSize * 1.3, 14), otherwise the configured size. -/
def adjustedFontSize (o : BarcodeOptions) : ℚ :=
  if isSmallBarcode o && shouldAutoAdjust o then min (o.fontSize * (13/10)) 14
  else o.fontSize

/-- Text y-offset handed to bwip-js: 6 for adjusted small barcodes, 12
otherwise. -/
def adjustedTextOffset (o : BarcodeOptions) : ℚ :=
  if isSmallBarcode o && shouldAutoAdjust o then 6 else 12

/-- Observable pure data flow of one backend generateBarcode call: the
text encoded by the symbology collaborator (the text field of the
bwip-js options, which is also the displayed text since includetext
shows that same field) and the produced filename. The single processData
application feeding both is the body of generateBarcode. -/
structure RenderRecord where
  encodedText : JSStr
  filename : JSStr
deriving DecidableEq, Repr

/-- Filename template of generateBarcode:
barcode_{processedData}_{width}x{height}{unit}.png. -/
def filenameFor (processedData : JSStr) (o : BarcodeOptions) : JSStr :=
  "barcode_".toList ++ processedData ++ "_".toList
    ++ (toString o.width).toList ++ "x".toList ++ (toString o.height).toList
    ++ (match o.unit with | .cm => "cm".toList | .inches => "inches".toList)
    ++ ".png".toList

/-- Pure projection of the backend generateBarcode body: processData is
applied once, and its result is both the encoded text and the filename
token. -/
def generateBarcodeRecord (data : JSStr) (o : BarcodeOptions) : RenderRecord :=
  let processedData := processData data o.ignoreDigits
  { encodedText := processedData
    filename := filenameFor processedData o }

end Backend

namespace Frontend

/-- Height in centimeters from the frontend configuration dimensions. -/
def heightCm (c : BarcodeConfig) : ℚ :=
  if c.dimensions.unit = .cm then c.dimensions.height
  else c.dimensions.height * (127/50)

/-- Small-barcode classification of the frontend generator. -/
def isSmallBarcode (c : BarcodeConfig) : Bool :=
  decide (heightCm c < 1)

/-- Auto-adjust flag of the frontend generator
(configuration.font.autoAdjustFont !== false). -/
def shouldAutoAdjust (c : BarcodeConfig) : Bool :=
  c.font.autoAdjustFont ≠ some false

/-- Font size used by the high-DPI revision of generate1DBarcode: for
small barcodes with auto-adjust the source computes
Math.max(configuration.font.size * 0.7, 6), otherwise the configured
size. -/
def adjustedFontSize (c : BarcodeConfig) : ℚ :=
  if isSmallBarcode c && shouldAutoAdjust c then max (c.font.size * (7/10)) 6
  else c.font.size

/-- Text margin used by generate1DBarcode: 6 for adjusted small
barcodes, 16 otherwise. -/
def adjustedTextMargin (c : BarcodeConfig) : ℚ :=
  if isSmallBarcode c && shouldAutoAdjust c then 6 else 16

/-- Execution venue chosen by the generation-mode router; the source
literals are "client" (the spec calls this local) and "server" (the
spec calls this remote). -/
inductive GenerationMode
  | client
  | server
deriving DecidableEq, Repr

/-- Decision record returned by determineGenerationMode. -/
structure RoutingDecision where
  mode : GenerationMode
  reason : JSStr
  threshold : ℤ
deriving DecidableEq, Repr

/-- Router constant CLIENT_SIDE_THRESHOLD. -/
def CLIENT_SIDE_THRESHOLD : ℕ := 20

/-- Router constant SERVER_FALLBACK_THRESHOLD. -/
def SERVER_FALLBACK_THRESHOLD : ℕ := 100

/-- Complexity factor of the router, translated line by line from
calculateComplexityFactor: starts at 1, times 1.5 for qr, times 2 for
dual mode, times 1.2 when the average of the raw configured width and
height exceeds 10 (no unit conversion happens in the source), times 1.1
for stretch, and finally Math.max(1, factor). -/
def calculateComplexityFactor (configuration : BarcodeConfig) : ℚ :=
  let factor : ℚ := 1
  let factor := if configuration.type = .qr then factor * (3/2) else factor
  let factor := if configuration.dualMode then factor * 2 else factor
  let avgDimension := (configuration.dimensions.width + configuration.dimensions.height) / 2
  let factor := if avgDimension > 10 then factor * (6/5) else factor
  let factor := if configuration.options.stretch then factor * (11/10) else factor
  max 1 factor

/-- Conversion of a configured length value to centimeters, as the
claim wording "cm-equivalent units" requires. -/
def cmEquivalent (unit : UnitType) (v : ℚ) : ℚ :=
  match unit with
  | .cm => v
  | .inches => v * (127/50)

/-- Complexity factor as claim C3 words it, with the average of width
and height expressed in cm-equivalent units; stated only for comparison
with calculateComplexityFactor, which uses the raw configured values. -/
def specComplexityFactorCmEquiv (c : BarcodeConfig) : ℚ :=
  max 1 ((if c.type = .qr then (3/2 : ℚ) else 1)
    * (if c.dualMode then 2 else 1)
    * (if (cmEquivalent c.dimensions.unit c.dimensions.width
          + cmEquivalent c.dimensions.unit c.dimensions.height) / 2 > 10
        then 6/5 else 1)
    * (if c.options.stretch then 11/10 else 1))

/-- Health probe checkAPIHealth: a fetch against the health endpoint
with a 5 second timeout inside try/catch. The outcome of the external
fetch is a value: ok r means the fetch resolved with response.ok = r,
error means it threw (network failure or timeout). The catch branch of
the source returns false, so the function always produces a boolean. -/
def checkAPIHealth (fetchOutcome : Except Unit Bool) : Bool :=
  match fetchOutcome with
  | .ok respOk => respOk
  | .error _ => false

/-- Router decision function determineGenerationMode. The source awaits
checkAPIHealth lazily; its boolean result is the apiAvailable parameter
here, and a branch that never inspects apiAvailable is one that never
probes. -/
def determineGenerationMode (dataCount : ℕ) (configuration : BarcodeConfig)
    (apiAvailable : Bool) : RoutingDecision :=
  let complexityFactor := calculateComplexityFactor configuration
  let adjustedThreshold : ℤ := ⌊(CLIENT_SIDE_THRESHOLD : ℚ) / complexityFactor⌋
  if (dataCount : ℤ) ≤ adjustedThreshold then
    { mode := .client
      reason := ("Small dataset (" ++ toString dataCount
        ++ " items). Client-side generation is faster.").toList
      threshold := adjustedThreshold }
  else if dataCount > SERVER_FALLBACK_THRESHOLD then
    if apiAvailable then
      { mode := .server
        reason := ("Large dataset (" ++ toString dataCount
          ++ " items). Server-side generation is more efficient.").toList
        threshold := adjustedThreshold }
    else
      { mode := .client
        reason := "API unavailable. Falling back to client-side generation.".toList
        threshold := adjustedThreshold }
  else if apiAvailable then
    { mode := .server
      reason := ("Medium dataset (" ++ toString dataCount
        ++ " items). Using server for better performance.").toList
      threshold := adjustedThreshold }
  else
    { mode := .client
      reason := "API unavailable. Using client-side generation.".toList
      threshold := adjustedThreshold }

/-- One rendered image produced by the batch renderer: the pixel
content lives on an external canvas, so the record keeps the data URL
token and the filename, as in the source GeneratedBarcode interface. -/
structure GeneratedBarcode where
  dataUrl : JSStr
  filename : JSStr
deriving DecidableEq, Repr

/-- Filename template of the frontend generateBarcodes loop:
barcode_{data}_{width}x{height}{unit}.png. -/
def filenameFor (data : JSStr) (dims : Dimensions) : JSStr :=
  "barcode_".toList ++ data ++ "_".toList
    ++ (toString dims.width).toList ++ "x".toList ++ (toString dims.height).toList
    ++ (match dims.unit with | .cm => "cm".toList | .inches => "inches".toList)
    ++ ".png".toList

/-- Observable pure data flow of one frontend generate1DBarcode call:
the processed text handed to JsBarcode (it is both the encoded value
and the text field displayed under the bars) together with the
filename, which generate1DBarcode returns exactly as the caller passed
it - and the generateBarcodes loop passes a filename built from the raw
input value, so truncated characters remain in frontend filenames. -/
structure RenderRecord where
  encodedText : JSStr
  filename : JSStr
deriving DecidableEq, Repr

/-- Pure projection of the frontend generate1DBarcode body: processData
is applied once to the raw data, its result is the JsBarcode text, and
the filename argument is echoed unchanged into the returned record. -/
def generate1DBarcodeRecord (data : JSStr) (configuration : BarcodeConfig)
    (filename : JSStr) : RenderRecord :=
  let processedData := processData data configuration.options.ignoreDigits
  { encodedText := processedData
    filename := filename }

/-- Secondary configuration built inside the dual-mode branch of
generateBarcodes: the primary configuration with dimensions replaced by
dualDimensions, font replaced by dualFont when present, and dualMode
forced to false to prevent recursion. -/
def dualConfigOf (configuration : BarcodeConfig) (dd : Dimensions) : BarcodeConfig :=
  { configuration with
      dimensions := dd
      font := configuration.dualFont.getD configuration.font
      dualMode := false }

/-- Batch renderer generateBarcodes. The single-item renderer
generateBarcode draws on a DOM canvas through JsBarcode and is passed
in as the render parameter (arguments: data, configuration, filename);
it returns none when the collaborator rejects the value, and such
results are skipped as in the source (if result push). -/
def generateBarcodes (render : JSStr → BarcodeConfig → JSStr → Option GeneratedBarcode) :
    List JSStr → BarcodeConfig → List GeneratedBarcode
  | [], _ => []
  | data :: rest, configuration =>
    let filename := filenameFor data configuration.dimensions
    let primary := (render data configuration filename).toList
    let dual :=
      match configuration.dualMode, configuration.dualDimensions with
      | true, some dd =>
        (render data (dualConfigOf configuration dd) (filenameFor data dd)).toList
      | _, _ => []
    primary ++ dual ++ generateBarcodes render rest configuration

end Frontend

namespace Layout

/-- Margin record of the print layout configuration, in millimeters. -/
structure MarginsMm where
  top : ℚ
  bottom : ℚ
  left : ℚ
  right : ℚ
deriving DecidableEq, Repr

/-- Print layout configuration from the shared types. -/
structure PrintLayoutConfig where
  canvasWidthCm : ℚ
  continuousMode : Bool
  marginsMm : MarginsMm
  spacingMm : ℚ
  borderWidthMm : ℚ
  borderColor : JSStr
deriving DecidableEq, Repr

/-- Input to the layout planner: one generated barcode with its realized
pixel dimensions (the byte buffer itself is external). -/
structure InputBarcode where
  width : ℚ
  height : ℚ
deriving DecidableEq, Repr

/-- One placed cell of the computed layout. -/
structure BarcodeLayoutItem where
  x : ℚ
  y : ℚ
  widthMm : ℚ
  heightMm : ℚ
  isPrimary : Bool
deriving DecidableEq, Repr

/-- Result of a layout computation. -/
structure LayoutCalculation where
  canvasWidthMm : ℚ
  canvasHeightMm : ℚ
  barcodes : List BarcodeLayoutItem
deriving DecidableEq, Repr

/-- Conversion of cm to mm. -/
def cmToMm (cm : ℚ) : ℚ := cm * 10

/-- Conversion of pixels at 96 DPI to mm: (px / 96) * 25.4. -/
def pxToMm (px : ℚ) : ℚ := px / 96 * (127/5)

/-- Internal padding constant of calculateLayoutWithActualSizes in the
PNG generator: 0.25 mm between barcode and border. -/
def internalPaddingMm : ℚ := 1/4

/-- Maximum of a list of rationals, as Math.max applied to a spread
nonempty list; the callers guard against the empty case, for which
JavaScript would produce negative infinity. -/
def listMax : List ℚ → ℚ
  | [] => 0
  | x :: xs => xs.foldl max x

/-- Widest barcode of the batch converted to mm
(maxBarcodeWidthPx / 96 * 25.4). -/
def maxBarcodeWidthMm (barcodes : List InputBarcode) : ℚ :=
  pxToMm (listMax (barcodes.map (fun b => b.width)))

/-- Cell width in mm: widest barcode plus twice the internal padding,
twice the border width, and the spacing. -/
def cellWidthMm (barcodes : List InputBarcode) (layoutConfig : PrintLayoutConfig) : ℚ :=
  maxBarcodeWidthMm barcodes + internalPaddingMm * 2
    + layoutConfig.borderWidthMm * 2 + layoutConfig.spacingMm

/-- Cell height in mm of one barcode: its height plus twice the internal
padding and twice the border width. -/
def cellHeightMm (borderWidthMm : ℚ) (b : InputBarcode) : ℚ :=
  pxToMm b.height + internalPaddingMm * 2 + borderWidthMm * 2

/-- Columns per row as computed by calculateLayoutWithActualSizes:
the item count in continuous mode, otherwise the floor of the available
width divided by the cell width. -/
def columnsPerRowOf (barcodes : List InputBarcode) (layoutConfig : PrintLayoutConfig) : ℤ :=
  if layoutConfig.continuousMode then (barcodes.length : ℤ)
  else
    ⌊(cmToMm layoutConfig.canvasWidthCm - layoutConfig.marginsMm.left
        - layoutConfig.marginsMm.right) / cellWidthMm barcodes layoutConfig⌋

/-- Placement loop of calculateLayoutWithActualSizes. State arguments
mirror the mutable locals: the parity index i (for the isPrimary flag),
currentX, currentY, currentColumn and currentRowHeight. Returns the
placed items together with the final currentY and currentRowHeight,
from which the canvas height is derived. -/
def placeLoop (cont : Bool) (leftMargin spacingMm cellW borderW : ℚ) (k : ℤ)
    (dualMode : Bool) :
    List InputBarcode → ℕ → ℚ → ℚ → ℕ → ℚ → List BarcodeLayoutItem × ℚ × ℚ
  | [], _, _, y, _, rowH => ([], y, rowH)
  | b :: rest, i, x, y, col, rowH =>
    let item : BarcodeLayoutItem :=
      { x := x
        y := y
        widthMm := pxToMm b.width
        heightMm := pxToMm b.height
        isPrimary := decide (i % 2 = 0) || !dualMode }
    let rowH' := max rowH (cellHeightMm borderW b)
    let col' := col + 1
    let x' := x + cellW
    if !cont && (col' : ℤ) ≥ k then
      let r := placeLoop cont leftMargin spacingMm cellW borderW k dualMode rest
        (i + 1) leftMargin (y + rowH' + spacingMm) 0 0
      (item :: r.1, r.2)
    else
      let r := placeLoop cont leftMargin spacingMm cellW borderW k dualMode rest
        (i + 1) x' y col' rowH'
      (item :: r.1, r.2)

/-- Layout computation calculateLayoutWithActualSizes of the PNG
generator: continuous mode gives a single dynamically widened row,
paged mode wraps at the computed column count and throws (here: returns
an error) when not even one column fits. -/
def calculateLayoutWithActualSizes (barcodes : List InputBarcode)
    (barcodeConfig : BarcodeConfig) (layoutConfig : PrintLayoutConfig) :
    Except JSStr LayoutCalculation :=
  let cellW := cellWidthMm barcodes layoutConfig
  let k := columnsPerRowOf barcodes layoutConfig
  if layoutConfig.continuousMode = false ∧ k < 1 then
    .error "Barcode is too wide to fit on canvas with specified margins".toList
  else
    let canvasWidthMm :=
      if layoutConfig.continuousMode then
        layoutConfig.marginsMm.left + layoutConfig.marginsMm.right
          + cellW * (barcodes.length : ℚ)
      else cmToMm layoutConfig.canvasWidthCm
    let r := placeLoop layoutConfig.continuousMode layoutConfig.marginsMm.left
      layoutConfig.spacingMm cellW layoutConfig.borderWidthMm k barcodeConfig.dualMode
      barcodes 0 layoutConfig.marginsMm.left layoutConfig.marginsMm.top 0 0
    .ok { canvasWidthMm := canvasWidthMm
          canvasHeightMm := r.2.1 + r.2.2 + layoutConfig.marginsMm.bottom
          barcodes := r.1 }

/-- Observer of the placement loop recording, for each item, the number
of row wraps executed before the item is placed; it follows exactly the
wrap condition of placeLoop (paged mode: currentColumn + 1 at or above
columnsPerRow) without touching the geometric state. -/
def placeLoopRows (cont : Bool) (k : ℤ) :
    List InputBarcode → ℕ → ℕ → List ℕ
  | [], _, _ => []
  | _ :: rest, wraps, col =>
    let col' := col + 1
    if !cont && (col' : ℤ) ≥ k then
      wraps :: placeLoopRows cont k rest (wraps + 1) 0
    else
      wraps :: placeLoopRows cont k rest wraps col'

/-- Row index of every placed item of a paged layout, starting from the
initial loop state. -/
def layoutRows (barcodes : List InputBarcode) (layoutConfig : PrintLayoutConfig) : List ℕ :=
  placeLoopRows layoutConfig.continuousMode (columnsPerRowOf barcodes layoutConfig)
    barcodes 0 0

end Layout

/-! Theorems. -/

/-- C10: for every input string, processing with ignoreDigits enabled,
position end and count 0 returns the empty string (the slice upper
bound becomes -0, that is 0), not the input unchanged, even though
count 0 passes the schema range 0..20. -/
theorem C10_end_count_zero_empties :
    (∀ s : JSStr, processData s (some ⟨true, .stop, 0⟩) = []) ∧
    (∀ s : JSStr, s ≠ [] → processData s (some ⟨true, .stop, 0⟩) ≠ s) ∧
    ignoreDigitsCountValid 0 = true := by
  refine ⟨fun s => rfl, fun s hs => ?_, rfl⟩
  intro h
  exact hs (by simpa [processData] using h.symm)

/-- Witness for C10 at a concrete input. -/
theorem C10_end_count_zero_empties_witness :
    processData "123".toList (some ⟨true, .stop, 0⟩) = [] ∧
    processData "123".toList (some ⟨true, .stop, 0⟩) ≠ "123".toList :=
  ⟨C10_end_count_zero_empties.1 _,
   C10_end_count_zero_empties.2.1 _ (by decide)⟩

/-- C2 counterexample: with ignoreDigits enabled, position end and
count 0 the processed value is empty, so the input "12345" does not
have exactly 0 characters removed as the claim states. -/
theorem C2_counterexample :
    processData "12345".toList (some ⟨true, .stop, 0⟩) = [] ∧
    (processData "12345".toList (some ⟨true, .stop, 0⟩)).length ≠
      ("12345".toList).length - 0 := by
  exact ⟨rfl, by decide⟩

/-- C2 (amended): disabled or absent ignoreDigits leaves the value
unchanged; enabled truncation removes exactly min(count, length)
characters from the chosen side, except that position end with count 0
empties the value. Each render applies processData exactly once and its
single result is the encoded (and displayed) text in both generators;
the backend filename embeds the processed value, whereas the frontend
generate1DBarcode echoes the filename its batch loop built from the raw
untruncated input. -/
theorem C2_truncation_once_per_render (s : JSStr) (o : Backend.BarcodeOptions)
    (c : BarcodeConfig) :
    processData s none = s ∧
    (∀ ig : IgnoreDigits, ig.enabled = false → processData s (some ig) = s) ∧
    (∀ ig : IgnoreDigits, ig.enabled = true → ig.position = .start →
      ∃ removed, s = removed ++ processData s (some ig) ∧
        removed.length = min ig.count s.length) ∧
    (∀ ig : IgnoreDigits, ig.enabled = true → ig.position = .stop → 1 ≤ ig.count →
      ∃ removed, s = processData s (some ig) ++ removed ∧
        removed.length = min ig.count s.length) ∧
    (∀ ig : IgnoreDigits, ig.enabled = true → ig.position = .stop → ig.count = 0 →
      processData s (some ig) = []) ∧
    (Backend.generateBarcodeRecord s o).encodedText = processData s o.ignoreDigits ∧
    (Backend.generateBarcodeRecord s o).filename
      = Backend.filenameFor (processData s o.ignoreDigits) o ∧
    (Frontend.generate1DBarcodeRecord s c
        (Frontend.filenameFor s c.dimensions)).encodedText
      = processData s c.options.ignoreDigits ∧
    (Frontend.generate1DBarcodeRecord s c
        (Frontend.filenameFor s c.dimensions)).filename
      = Frontend.filenameFor s c.dimensions := by
  refine ⟨rfl, ?_, ?_, ?_, ?_, rfl, rfl, rfl, rfl⟩
  · intro ig hig
    simp [processData, hig]
  · intro ig hig hpos
    refine ⟨s.take ig.count, ?_, ?_⟩
    · simp [processData, hig, hpos]
    · simp [List.length_take]
  · intro ig hig hpos hcount
    have hne : ¬ ig.count = 0 := by omega
    refine ⟨s.drop (s.length - ig.count), ?_, ?_⟩
    · simp [processData, hig, hpos, hne]
    · simp [List.length_drop]
      omega
  · intro ig hig hpos hcount
    simp [processData, hig, hpos, hcount]

/-- Witness for C2 at concrete inputs. -/
theorem C2_truncation_once_per_render_witness :
    (∃ removed, "ABCDE".toList = removed
        ++ processData "ABCDE".toList (some ⟨true, .start, 2⟩) ∧
      removed.length = min 2 ("ABCDE".toList).length) ∧
    (∃ removed, "ABCDE".toList
        = processData "ABCDE".toList (some ⟨true, .stop, 2⟩) ++ removed ∧
      removed.length = min 2 ("ABCDE".toList).length) :=
  ⟨(C2_truncation_once_per_render "ABCDE".toList
      { type := .code128, width := 5, height := 3, unit := .cm, showText := true,
        stretch := false, fontFamily := [], fontSize := 10 }
      { type := .code128, dimensions := ⟨5, 3, .cm⟩,
        font := { family := [], size := 10 },
        options := { showText := true, stretch := false },
        dualMode := false }).2.2.1
      ⟨true, .start, 2⟩ rfl rfl,
   (C2_truncation_once_per_render "ABCDE".toList
      { type := .code128, width := 5, height := 3, unit := .cm, showText := true,
        stretch := false, fontFamily := [], fontSize := 10 }
      { type := .code128, dimensions := ⟨5, 3, .cm⟩,
        font := { family := [], size := 10 },
        options := { showText := true, stretch := false },
        dualMode := false }).2.2.2.1
      ⟨true, .stop, 2⟩ rfl rfl (by decide)⟩

/-- C1 counterexample: a 0.5 cm high backend configuration with font
size 8 and auto-adjust on gets the bwip-js text size
min(8 * 1.3, 14) = 10.4, not max(8 * 0.7, 6) = 6 as the claim states
for every configuration. -/
theorem C1_counterexample :
    Backend.adjustedFontSize
      { type := .code128, width := 5, height := 1/2, unit := .cm,
        showText := true, stretch := false, fontFamily := [], fontSize := 8 }
      = 52/5 ∧
    (52/5 : ℚ) ≠ max (8 * (7/10)) 6 := by
  constructor
  · simp only [Backend.adjustedFontSize, Backend.isSmallBarcode, Backend.heightCm,
      Backend.shouldAutoAdjust]
    norm_num
    all_goals simp
  · norm_num

/-- C1 (amended): for labels under 1 cm with auto-adjust not false, the
frontend high-DPI 1D renderer uses font size max(configured * 0.7, 6)
while the backend generator uses min(configured * 1.3, 14); for labels
at least 1 cm high or with autoAdjustFont = false, both use the
configured size exactly. -/
theorem C1_small_label_font_size (o : Backend.BarcodeOptions) (c : BarcodeConfig) :
    (Backend.heightCm o < 1 → o.autoAdjustFont ≠ some false →
      Backend.adjustedFontSize o = min (o.fontSize * (13/10)) 14) ∧
    (1 ≤ Backend.heightCm o ∨ o.autoAdjustFont = some false →
      Backend.adjustedFontSize o = o.fontSize) ∧
    (Frontend.heightCm c < 1 → c.font.autoAdjustFont ≠ some false →
      Frontend.adjustedFontSize c = max (c.font.size * (7/10)) 6) ∧
    (1 ≤ Frontend.heightCm c ∨ c.font.autoAdjustFont = some false →
      Frontend.adjustedFontSize c = c.font.size) := by
  refine ⟨fun h1 h2 => ?_, fun h => ?_, fun h1 h2 => ?_, fun h => ?_⟩
  · have hs : Backend.isSmallBarcode o = true := by
      simp [Backend.isSmallBarcode, h1]
    have ha : Backend.shouldAutoAdjust o = true := by
      simp [Backend.shouldAutoAdjust, h2]
    simp [Backend.adjustedFontSize, hs, ha]
  · rcases h with h1 | h2
    · have hs : Backend.isSmallBarcode o = false := by
        simp [Backend.isSmallBarcode, not_lt.mpr h1]
      simp [Backend.adjustedFontSize, hs]
    · have ha : Backend.shouldAutoAdjust o = false := by
        simp [Backend.shouldAutoAdjust, h2]
      simp [Backend.adjustedFontSize, ha]
  · have hs : Frontend.isSmallBarcode c = true := by
      simp [Frontend.isSmallBarcode, h1]
    have ha : Frontend.shouldAutoAdjust c = true := by
      simp [Frontend.shouldAutoAdjust, h2]
    simp [Frontend.adjustedFontSize, hs, ha]
  · rcases h with h1 | h2
    · have hs : Frontend.isSmallBarcode c = false := by
        simp [Frontend.isSmallBarcode, not_lt.mpr h1]
      simp [Frontend.adjustedFontSize, hs]
    · have ha : Frontend.shouldAutoAdjust c = false := by
        simp [Frontend.shouldAutoAdjust, h2]
      simp [Frontend.adjustedFontSize, ha]

/-- Witness for C1 at concrete small and regular configurations. -/
theorem C1_small_label_font_size_witness :
    Backend.adjustedFontSize
      { type := .code128, width := 5, height := 1/2, unit := .cm,
        showText := true, stretch := false, fontFamily := [], fontSize := 8 }
      = min (8 * (13/10)) 14 ∧
    Frontend.adjustedFontSize
      { type := .code128, dimensions := ⟨5, 1/2, .cm⟩,
        font := { family := [], size := 8 },
        options := { showText := true, stretch := false },
        dualMode := false }
      = max (8 * (7/10)) 6 ∧
    Frontend.adjustedFontSize
      { type := .code128, dimensions := ⟨5, 3, .cm⟩,
        font := { family := [], size := 8 },
        options := { showText := true, stretch := false },
        dualMode := false }
      = 8 :=
  ⟨(C1_small_label_font_size
      { type := .code128, width := 5, height := 1/2, unit := .cm,
        showText := true, stretch := false, fontFamily := [], fontSize := 8 }
      { type := .code128, dimensions := ⟨5, 1/2, .cm⟩,
        font := { family := [], size := 8 },
        options := { showText := true, stretch := false },
        dualMode := false }).1 (by norm_num [Backend.heightCm]) (by decide),
   (C1_small_label_font_size
      { type := .code128, width := 5, height := 1/2, unit := .cm,
        showText := true, stretch := false, fontFamily := [], fontSize := 8 }
      { type := .code128, dimensions := ⟨5, 1/2, .cm⟩,
        font := { family := [], size := 8 },
        options := { showText := true, stretch := false },
        dualMode := false }).2.2.1 (by norm_num [Frontend.heightCm]) (by decide),
   (C1_small_label_font_size
      { type := .code128, width := 5, height := 1/2, unit := .cm,
        showText := true, stretch := false, fontFamily := [], fontSize := 8 }
      { type := .code128, dimensions := ⟨5, 3, .cm⟩,
        font := { family := [], size := 8 },
        options := { showText := true, stretch := false },
        dualMode := false }).2.2.2 (Or.inl (by norm_num [Frontend.heightCm]))⟩

/-- C3 counterexample: a 5 by 5 inch configuration is 12.7 cm on
average, above 10 cm-equivalent, yet the router factor stays 1 because
the source averages the raw configured numbers without converting
units. -/
theorem C3_counterexample :
    Frontend.calculateComplexityFactor
      { type := .code128, dimensions := ⟨5, 5, .inches⟩,
        font := { family := [], size := 10 },
        options := { showText := true, stretch := false },
        dualMode := false } = 1 ∧
    Frontend.specComplexityFactorCmEquiv
      { type := .code128, dimensions := ⟨5, 5, .inches⟩,
        font := { family := [], size := 10 },
        options := { showText := true, stretch := false },
        dualMode := false } = 6/5 ∧
    (1 : ℚ) ≠ 6/5 := by
  refine ⟨?_, ?_, by norm_num⟩
  · simp only [Frontend.calculateComplexityFactor]
    norm_num
    all_goals simp
  · simp only [Frontend.specComplexityFactorCmEquiv, Frontend.cmEquivalent]
    norm_num
    simp
    norm_num

/-- C3 (amended): the complexity factor is the product of 1.5 for QR, 2
for dual mode, 1.2 when the average of the raw configured width and
height (no unit conversion) exceeds 10, and 1.1 for stretch, floored at
a minimum of 1; and every routing decision carries threshold
floor(20 / complexityFactor). -/
theorem C3_complexity_factor_product (c : BarcodeConfig) (n : ℕ) (avail : Bool) :
    Frontend.calculateComplexityFactor c =
      max 1 ((if c.type = .qr then (3/2 : ℚ) else 1)
        * (if c.dualMode then 2 else 1)
        * (if (c.dimensions.width + c.dimensions.height) / 2 > 10 then 6/5 else 1)
        * (if c.options.stretch then 11/10 else 1)) ∧
    (Frontend.determineGenerationMode n c avail).threshold =
      ⌊(20 : ℚ) / Frontend.calculateComplexityFactor c⌋ := by
  constructor
  · simp only [Frontend.calculateComplexityFactor]
    split_ifs <;> ring_nf
  · simp only [Frontend.determineGenerationMode, Frontend.CLIENT_SIDE_THRESHOLD,
      Nat.cast_ofNat]
    split_ifs <;> rfl

/-- C4: at complexity factor 1 the threshold is 20; 20 items route to
the client independently of the probe, 21 items route to the server
when the probe succeeds, and to the client with an explanatory fallback
reason when it fails. -/
theorem C4_router_boundary (c : BarcodeConfig)
    (hcf : Frontend.calculateComplexityFactor c = 1) :
    Frontend.determineGenerationMode 20 c true
      = Frontend.determineGenerationMode 20 c false ∧
    (Frontend.determineGenerationMode 20 c true).mode = .client ∧
    (Frontend.determineGenerationMode 21 c true).mode = .server ∧
    (Frontend.determineGenerationMode 21 c false).mode = .client ∧
    (Frontend.determineGenerationMode 21 c false).reason =
      "API unavailable. Using client-side generation.".toList := by
  have h20 : ⌊(Frontend.CLIENT_SIDE_THRESHOLD : ℚ)
      / Frontend.calculateComplexityFactor c⌋ = 20 := by
    rw [hcf]
    norm_num [Frontend.CLIENT_SIDE_THRESHOLD]
  simp only [Frontend.determineGenerationMode, Frontend.SERVER_FALLBACK_THRESHOLD, h20]
  norm_num

/-- Witness for C4 at a concrete factor-1 configuration. -/
theorem C4_router_boundary_witness :
    (Frontend.determineGenerationMode 21
      { type := .code128, dimensions := ⟨5, 3, .cm⟩,
        font := { family := [], size := 10 },
        options := { showText := true, stretch := false },
        dualMode := false } true).mode = .server ∧
    (Frontend.determineGenerationMode 21
      { type := .code128, dimensions := ⟨5, 3, .cm⟩,
        font := { family := [], size := 10 },
        options := { showText := true, stretch := false },
        dualMode := false } false).mode = .client :=
  ⟨(C4_router_boundary
      { type := .code128, dimensions := ⟨5, 3, .cm⟩,
        font := { family := [], size := 10 },
        options := { showText := true, stretch := false },
        dualMode := false }
      (by simp only [Frontend.calculateComplexityFactor]; norm_num; simp)).2.2.1,
   (C4_router_boundary
      { type := .code128, dimensions := ⟨5, 3, .cm⟩,
        font := { family := [], size := 10 },
        options := { showText := true, stretch := false },
        dualMode := false }
      (by simp only [Frontend.calculateComplexityFactor]; norm_num; simp)).2.2.2.1⟩

/-- C9: the health probe maps a fetch exception to the boolean false
instead of propagating it, and the routing decision is total: with the
probe unavailable the mode is always client, with a fallback reason
whenever the item count is above the adjusted threshold. -/
theorem C9_probe_failure_falls_back (n : ℕ) (c : BarcodeConfig) :
    (∀ b, Frontend.checkAPIHealth (.ok b) = b) ∧
    (∀ e : Unit, Frontend.checkAPIHealth (.error e) = false) ∧
    (Frontend.determineGenerationMode n c false).mode = .client ∧
    ((n : ℤ) > ⌊(20 : ℚ) / Frontend.calculateComplexityFactor c⌋ →
      (Frontend.determineGenerationMode n c false).reason =
          "API unavailable. Falling back to client-side generation.".toList ∨
        (Frontend.determineGenerationMode n c false).reason =
          "API unavailable. Using client-side generation.".toList) := by
  have hcast : ((Frontend.CLIENT_SIDE_THRESHOLD : ℕ) : ℚ) = 20 := by
    norm_num [Frontend.CLIENT_SIDE_THRESHOLD]
  refine ⟨fun b => rfl, fun e => rfl, ?_, ?_⟩
  · simp only [Frontend.determineGenerationMode]
    by_cases h1 : (n : ℤ) ≤ ⌊((Frontend.CLIENT_SIDE_THRESHOLD : ℕ) : ℚ)
        / Frontend.calculateComplexityFactor c⌋
    · simp [h1]
    · by_cases h2 : n > Frontend.SERVER_FALLBACK_THRESHOLD
      · simp [h1, h2]
      · simp [h1, h2]
  · intro hn
    simp only [Frontend.determineGenerationMode]
    by_cases h1 : (n : ℤ) ≤ ⌊((Frontend.CLIENT_SIDE_THRESHOLD : ℕ) : ℚ)
        / Frontend.calculateComplexityFactor c⌋
    · rw [hcast] at h1
      omega
    · by_cases h2 : n > Frontend.SERVER_FALLBACK_THRESHOLD
      · simp [h1, h2]
      · simp [h1, h2]

/-- Witness for C9 at a concrete above-threshold input. -/
theorem C9_probe_failure_falls_back_witness :
    (Frontend.determineGenerationMode 21
      { type := .code128, dimensions := ⟨5, 3, .cm⟩,
        font := { family := [], size := 10 },
        options := { showText := true, stretch := false },
        dualMode := false } false).reason =
        "API unavailable. Falling back to client-side generation.".toList ∨
      (Frontend.determineGenerationMode 21
        { type := .code128, dimensions := ⟨5, 3, .cm⟩,
          font := { family := [], size := 10 },
          options := { showText := true, stretch := false },
          dualMode := false } false).reason =
        "API unavailable. Using client-side generation.".toList :=
  (C9_probe_failure_falls_back 21
    { type := .code128, dimensions := ⟨5, 3, .cm⟩,
      font := { family := [], size := 10 },
      options := { showText := true, stretch := false },
      dualMode := false }).2.2.2 (by
        have h : Frontend.calculateComplexityFactor
            { type := .code128, dimensions := ⟨5, 3, .cm⟩,
              font := { family := [], size := 10 },
              options := { showText := true, stretch := false },
              dualMode := false } = 1 := by
          simp only [Frontend.calculateComplexityFactor]; norm_num; simp
        rw [h]
        norm_num)

/-- Helper: the placement loop emits one cell per input barcode. -/
theorem placeLoop_length (cont : Bool) (leftMargin spacingMm cellW borderW : ℚ)
    (k : ℤ) (dual : Bool) :
    ∀ (bs : List Layout.InputBarcode) (i : ℕ) (x y : ℚ) (col : ℕ) (rowH : ℚ),
      (Layout.placeLoop cont leftMargin spacingMm cellW borderW k dual
          bs i x y col rowH).1.length = bs.length := by
  intro bs
  induction bs with
  | nil => intro i x y col rowH; rfl
  | cons b rest ih =>
    intro i x y col rowH
    simp only [Layout.placeLoop]
    split <;> simp [ih]

/-- Helper: with continuousMode on, the wrap branch is dead code, so the
loop keeps currentY, accumulates the running maximum of the cell heights
into currentRowHeight, and places every cell at the starting y. -/
theorem placeLoop_continuous_spec (leftMargin spacingMm cellW borderW : ℚ)
    (k : ℤ) (dual : Bool) :
    ∀ (bs : List Layout.InputBarcode) (i : ℕ) (x y : ℚ) (col : ℕ) (rowH : ℚ),
      (Layout.placeLoop true leftMargin spacingMm cellW borderW k dual
          bs i x y col rowH).2.1 = y ∧
      (Layout.placeLoop true leftMargin spacingMm cellW borderW k dual
          bs i x y col rowH).2.2
        = bs.foldl (fun m b => max m (Layout.cellHeightMm borderW b)) rowH ∧
      ∀ it ∈ (Layout.placeLoop true leftMargin spacingMm cellW borderW k dual
          bs i x y col rowH).1, it.y = y := by
  intro bs
  induction bs with
  | nil =>
    intro i x y col rowH
    exact ⟨rfl, rfl, fun it h => absurd h (List.not_mem_nil it)⟩
  | cons b rest ih =>
    intro i x y col rowH
    simp only [Layout.placeLoop, Bool.not_true, Bool.false_and, Bool.false_eq_true,
      if_false, List.foldl_cons]
    obtain ⟨h1, h2, h3⟩ := ih (i + 1) (x + cellW) y (col + 1)
      (max rowH (Layout.cellHeightMm borderW b))
    refine ⟨h1, h2, fun it hmem => ?_⟩
    rcases List.mem_cons.mp hmem with hit | hit
    · rw [hit]
    · exact h3 it hit

/-- C5: with continuousMode on and a nonempty batch, the planner puts
every cell on one row (columnsPerRow is the item count and every cell
keeps the top-margin y, so no wrap ever happens), the canvas width is
left margin + right margin + cellWidth times the item count, and the
canvas height is top margin + the single row height + bottom margin. -/
theorem C5_continuous_single_row (bs : List Layout.InputBarcode)
    (bc : BarcodeConfig) (lc : Layout.PrintLayoutConfig)
    (hcont : lc.continuousMode = true) (hne : bs ≠ []) :
    Layout.columnsPerRowOf bs lc = (bs.length : ℤ) ∧
    ∃ lay, Layout.calculateLayoutWithActualSizes bs bc lc = .ok lay ∧
      lay.canvasWidthMm = lc.marginsMm.left + lc.marginsMm.right
        + Layout.cellWidthMm bs lc * (bs.length : ℚ) ∧
      lay.canvasHeightMm = lc.marginsMm.top
        + bs.foldl (fun m b => max m (Layout.cellHeightMm lc.borderWidthMm b)) 0
        + lc.marginsMm.bottom ∧
      lay.barcodes.length = bs.length ∧
      ∀ it ∈ lay.barcodes, it.y = lc.marginsMm.top := by
  constructor
  · simp [Layout.columnsPerRowOf, hcont]
  · simp only [Layout.calculateLayoutWithActualSizes]
    rw [if_neg (by simp [hcont])]
    rw [hcont]
    refine ⟨_, rfl, by simp, ?_, ?_, ?_⟩
    · obtain ⟨h1, h2, _⟩ := placeLoop_continuous_spec lc.marginsMm.left lc.spacingMm
        (Layout.cellWidthMm bs lc) lc.borderWidthMm (Layout.columnsPerRowOf bs lc)
        bc.dualMode bs 0 lc.marginsMm.left lc.marginsMm.top 0 0
      simp only [h1, h2]
    · exact placeLoop_length true lc.marginsMm.left lc.spacingMm
        (Layout.cellWidthMm bs lc) lc.borderWidthMm (Layout.columnsPerRowOf bs lc)
        bc.dualMode bs 0 lc.marginsMm.left lc.marginsMm.top 0 0
    · exact (placeLoop_continuous_spec lc.marginsMm.left lc.spacingMm
        (Layout.cellWidthMm bs lc) lc.borderWidthMm (Layout.columnsPerRowOf bs lc)
        bc.dualMode bs 0 lc.marginsMm.left lc.marginsMm.top 0 0).2.2

/-- Witness for C5 at a concrete two-item continuous batch. -/
theorem C5_continuous_single_row_witness :
    Layout.columnsPerRowOf [⟨96, 96⟩, ⟨96, 192⟩]
      { canvasWidthCm := 10, continuousMode := true,
        marginsMm := ⟨10, 10, 10, 10⟩, spacingMm := 5, borderWidthMm := 1,
        borderColor := [] } = 2 ∧
    ∃ lay, Layout.calculateLayoutWithActualSizes [⟨96, 96⟩, ⟨96, 192⟩]
        { type := .code128, dimensions := ⟨5, 3, .cm⟩,
          font := { family := [], size := 10 },
          options := { showText := true, stretch := false },
          dualMode := false }
        { canvasWidthCm := 10, continuousMode := true,
          marginsMm := ⟨10, 10, 10, 10⟩, spacingMm := 5, borderWidthMm := 1,
          borderColor := [] } = .ok lay ∧
      lay.canvasWidthMm = 10 + 10
        + Layout.cellWidthMm [⟨96, 96⟩, ⟨96, 192⟩]
            { canvasWidthCm := 10, continuousMode := true,
              marginsMm := ⟨10, 10, 10, 10⟩, spacingMm := 5, borderWidthMm := 1,
              borderColor := [] } * (2 : ℚ) ∧
      lay.canvasHeightMm = 10
        + [(⟨96, 96⟩ : Layout.InputBarcode), ⟨96, 192⟩].foldl
            (fun m b => max m (Layout.cellHeightMm 1 b)) 0
        + 10 ∧
      lay.barcodes.length = 2 ∧
      ∀ it ∈ lay.barcodes, it.y = 10 :=
  C5_continuous_single_row [⟨96, 96⟩, ⟨96, 192⟩]
    { type := .code128, dimensions := ⟨5, 3, .cm⟩,
      font := { family := [], size := 10 },
      options := { showText := true, stretch := false },
      dualMode := false }
    { canvasWidthCm := 10, continuousMode := true,
      marginsMm := ⟨10, 10, 10, 10⟩, spacingMm := 5, borderWidthMm := 1,
      borderColor := [] } rfl (by simp)

/-- C8 counterexample: an infeasible paged layout fails with the fixed
message "Barcode is too wide to fit on canvas with specified margins",
which contains no digit at all and hence not the offending width. -/
theorem C8_counterexample :
    Layout.calculateLayoutWithActualSizes [⟨1920, 96⟩]
      { type := .code128, dimensions := ⟨5, 3, .cm⟩,
        font := { family := [], size := 10 },
        options := { showText := true, stretch := false },
        dualMode := false }
      { canvasWidthCm := 10, continuousMode := false,
        marginsMm := ⟨10, 10, 10, 10⟩, spacingMm := 5, borderWidthMm := 1,
        borderColor := [] }
      = .error "Barcode is too wide to fit on canvas with specified margins".toList ∧
    ("Barcode is too wide to fit on canvas with specified margins".toList.all
      (fun ch => !ch.isDigit)) = true := by
  constructor
  · have hk : Layout.columnsPerRowOf [⟨1920, 96⟩]
        { canvasWidthCm := 10, continuousMode := false,
          marginsMm := ⟨10, 10, 10, 10⟩, spacingMm := 5, borderWidthMm := 1,
          borderColor := [] } < 1 := by
      norm_num [Layout.columnsPerRowOf, Layout.cellWidthMm, Layout.maxBarcodeWidthMm,
        Layout.listMax, Layout.internalPaddingMm, Layout.pxToMm, Layout.cmToMm]
    simp only [Layout.calculateLayoutWithActualSizes]
    rw [if_pos ⟨by trivial, hk⟩]
  · rfl

/-- C8 (amended): a paged layout whose computed columnsPerRow is below 1
fails immediately with the fixed no-width error message before placing
any cell, and a continuous layout never produces this error. -/
theorem C8_layout_infeasible (bs : List Layout.InputBarcode)
    (bc : BarcodeConfig) (lc : Layout.PrintLayoutConfig) :
    (lc.continuousMode = false → Layout.columnsPerRowOf bs lc < 1 →
      Layout.calculateLayoutWithActualSizes bs bc lc =
        .error "Barcode is too wide to fit on canvas with specified margins".toList) ∧
    (lc.continuousMode = true →
      ∃ lay, Layout.calculateLayoutWithActualSizes bs bc lc = .ok lay) := by
  constructor
  · intro h1 h2
    simp only [Layout.calculateLayoutWithActualSizes]
    rw [if_pos ⟨h1, h2⟩]
  · intro h1
    simp only [Layout.calculateLayoutWithActualSizes]
    rw [if_neg (by simp [h1])]
    exact ⟨_, rfl⟩

/-- Witness for C8 at concrete infeasible paged and feasible continuous
inputs. -/
theorem C8_layout_infeasible_witness :
    Layout.calculateLayoutWithActualSizes [⟨1920, 96⟩]
      { type := .code128, dimensions := ⟨5, 3, .cm⟩,
        font := { family := [], size := 10 },
        options := { showText := true, stretch := false },
        dualMode := false }
      { canvasWidthCm := 10, continuousMode := false,
        marginsMm := ⟨10, 10, 10, 10⟩, spacingMm := 5, borderWidthMm := 1,
        borderColor := [] }
      = .error "Barcode is too wide to fit on canvas with specified margins".toList ∧
    ∃ lay, Layout.calculateLayoutWithActualSizes [⟨1920, 96⟩]
      { type := .code128, dimensions := ⟨5, 3, .cm⟩,
        font := { family := [], size := 10 },
        options := { showText := true, stretch := false },
        dualMode := false }
      { canvasWidthCm := 10, continuousMode := true,
        marginsMm := ⟨10, 10, 10, 10⟩, spacingMm := 5, borderWidthMm := 1,
        borderColor := [] } = .ok lay :=
  ⟨(C8_layout_infeasible [⟨1920, 96⟩]
      { type := .code128, dimensions := ⟨5, 3, .cm⟩,
        font := { family := [], size := 10 },
        options := { showText := true, stretch := false },
        dualMode := false }
      { canvasWidthCm := 10, continuousMode := false,
        marginsMm := ⟨10, 10, 10, 10⟩, spacingMm := 5, borderWidthMm := 1,
        borderColor := [] }).1 rfl (by norm_num [Layout.columnsPerRowOf,
          Layout.cellWidthMm, Layout.maxBarcodeWidthMm, Layout.listMax,
          Layout.internalPaddingMm, Layout.pxToMm, Layout.cmToMm]),
   (C8_layout_infeasible [⟨1920, 96⟩]
      { type := .code128, dimensions := ⟨5, 3, .cm⟩,
        font := { family := [], size := 10 },
        options := { showText := true, stretch := false },
        dualMode := false }
      { canvasWidthCm := 10, continuousMode := true,
        marginsMm := ⟨10, 10, 10, 10⟩, spacingMm := 5, borderWidthMm := 1,
        borderColor := [] }).2 rfl⟩

/-- Helper: paged-mode invariant of the placement loop. Starting with
currentColumn c0 below the column count K and currentX equal to
leftMargin + c0 * cellWidth, the cell placed for the t-th remaining
barcode sits at column (c0 + t) mod K, so its x coordinate is
leftMargin + ((c0 + t) mod K) * cellWidth; its isPrimary flag follows
the parity of the running index. -/
theorem placeLoop_paged_invariant (leftMargin spacingMm cellW borderW : ℚ)
    (K : ℕ) (hK1 : 1 ≤ K) (dual : Bool) :
    ∀ (bs : List Layout.InputBarcode) (i : ℕ) (y rowH : ℚ) (c0 : ℕ) (x : ℚ),
      c0 < K → x = leftMargin + (c0 : ℚ) * cellW →
      ∀ t, t < bs.length →
        ∃ it : Layout.BarcodeLayoutItem,
          (Layout.placeLoop false leftMargin spacingMm cellW borderW (K : ℤ) dual
              bs i x y c0 rowH).1[t]? = some it ∧
          it.x = leftMargin + (((c0 + t) % K : ℕ) : ℚ) * cellW ∧
          it.isPrimary = (decide ((i + t) % 2 = 0) || !dual) := by
  intro bs
  induction bs with
  | nil =>
    intro i y rowH c0 x hc0 hx t ht
    exact absurd ht (by simp)
  | cons b rest ih =>
    intro i y rowH c0 x hc0 hx t ht
    simp only [Layout.placeLoop]
    split
    case isTrue hcond =>
      have hwrap : c0 + 1 = K := by
        have h1 : ((c0 + 1 : ℕ) : ℤ) ≥ (K : ℤ) := by
          simpa using hcond
        omega
      cases t with
      | zero =>
        refine ⟨⟨x, y, Layout.pxToMm b.width, Layout.pxToMm b.height,
            decide (i % 2 = 0) || !dual⟩, by simp, ?_, ?_⟩
        · simp [hx, Nat.mod_eq_of_lt hc0]
        · simp
      | succ s =>
        have hs : s < rest.length := by
          simpa using ht
        obtain ⟨it, hget, hxit, hprim⟩ := ih (i + 1)
          (y + max rowH (Layout.cellHeightMm borderW b) + spacingMm) 0 0 leftMargin
          (by omega) (by simp) s hs
        refine ⟨it, ?_, ?_, ?_⟩
        · simpa using hget
        · rw [hxit]
          have h2 : c0 + (s + 1) = K + s := by omega
          rw [h2, Nat.add_mod_left, Nat.zero_add]
        · rw [hprim]
          have h3 : i + 1 + s = i + (s + 1) := by omega
          rw [h3]
    case isFalse hcond =>
      have hnw : c0 + 1 < K := by
        have h1 : ¬ ((c0 + 1 : ℕ) : ℤ) ≥ (K : ℤ) := by
          simpa using hcond
        omega
      cases t with
      | zero =>
        refine ⟨⟨x, y, Layout.pxToMm b.width, Layout.pxToMm b.height,
            decide (i % 2 = 0) || !dual⟩, by simp, ?_, ?_⟩
        · simp [hx, Nat.mod_eq_of_lt hc0]
        · simp
      | succ s =>
        have hs : s < rest.length := by
          simpa using ht
        obtain ⟨it, hget, hxit, hprim⟩ := ih (i + 1) y
          (max rowH (Layout.cellHeightMm borderW b)) (c0 + 1) (x + cellW)
          hnw (by rw [hx]; push_cast; ring) s hs
        refine ⟨it, ?_, ?_, ?_⟩
        · simpa using hget
        · rw [hxit]
          have h2 : c0 + 1 + s = c0 + (s + 1) := by omega
          rw [h2]
        · rw [hprim]
          have h3 : i + 1 + s = i + (s + 1) := by omega
          rw [h3]

/-- Helper: the wrap-count observer emits, for the t-th remaining item,
the starting wrap count plus (c0 + t) div K. -/
theorem placeLoopRows_paged_invariant (K : ℕ) (hK1 : 1 ≤ K) :
    ∀ (bs : List Layout.InputBarcode) (w c0 : ℕ), c0 < K →
      ∀ t, t < bs.length →
        (Layout.placeLoopRows false (K : ℤ) bs w c0)[t]? = some (w + (c0 + t) / K) := by
  intro bs
  induction bs with
  | nil =>
    intro w c0 hc0 t ht
    exact absurd ht (by simp)
  | cons b rest ih =>
    intro w c0 hc0 t ht
    simp only [Layout.placeLoopRows]
    split
    case isTrue hcond =>
      have hwrap : c0 + 1 = K := by
        have h1 : ((c0 + 1 : ℕ) : ℤ) ≥ (K : ℤ) := by
          simpa using hcond
        omega
      cases t with
      | zero =>
        simp [Nat.div_eq_of_lt hc0]
      | succ s =>
        have hs : s < rest.length := by
          simpa using ht
        have hrec := ih (w + 1) 0 (by omega) s hs
        rw [List.getElem?_cons_succ, hrec]
        have h2 : c0 + (s + 1) = K + s := by omega
        rw [h2, Nat.add_div_left s (by omega), Nat.zero_add]
        congr 1
        omega
    case isFalse hcond =>
      have hnw : c0 + 1 < K := by
        have h1 : ¬ ((c0 + 1 : ℕ) : ℤ) ≥ (K : ℤ) := by
          simpa using hcond
        omega
      cases t with
      | zero =>
        simp [Nat.div_eq_of_lt hc0]
      | succ s =>
        have hs : s < rest.length := by
          simpa using ht
        have hrec := ih w (c0 + 1) hnw s hs
        rw [List.getElem?_cons_succ, hrec]
        have h2 : c0 + 1 + s = c0 + (s + 1) := by omega
        rw [h2]

/-- C6: in paged mode with computed columnsPerRow K at least 1, the cell
of the item at zero-based index t sits in column t mod K (its x
coordinate is leftMargin + (t mod K) * cellWidth) of row t div K (the
row entered after exactly t div K wraps of the placement loop), with the
isPrimary flag alternating over consecutive positions in dual mode; on
the concrete six-cell dual batch with three columns the dual pair at
indices 2 and 3 straddles the boundary between rows 0 and 1. -/
theorem C6_paged_row_major (bs : List Layout.InputBarcode) (bc : BarcodeConfig)
    (lc : Layout.PrintLayoutConfig) (hcont : lc.continuousMode = false)
    (K : ℕ) (hK : Layout.columnsPerRowOf bs lc = (K : ℤ)) (hK1 : 1 ≤ K) :
    (∃ lay, Layout.calculateLayoutWithActualSizes bs bc lc = .ok lay ∧
      ∀ t, t < bs.length → ∃ it, lay.barcodes[t]? = some it ∧
        it.x = lc.marginsMm.left + ((t % K : ℕ) : ℚ) * Layout.cellWidthMm bs lc ∧
        (Layout.layoutRows bs lc)[t]? = some (t / K) ∧
        (bc.dualMode = true → it.isPrimary = decide (t % 2 = 0))) ∧
    Layout.layoutRows [⟨96, 96⟩, ⟨96, 96⟩, ⟨96, 96⟩, ⟨96, 96⟩, ⟨96, 96⟩, ⟨96, 96⟩]
      { canvasWidthCm := 10, continuousMode := false,
        marginsMm := ⟨10, 10, 10, 10⟩, spacingMm := 0, borderWidthMm := 0,
        borderColor := [] } = [0, 0, 0, 1, 1, 1] := by
  constructor
  · have hknot : ¬ (lc.continuousMode = false ∧ Layout.columnsPerRowOf bs lc < 1) := by
      rintro ⟨-, hlt⟩
      rw [hK] at hlt
      omega
    simp only [Layout.calculateLayoutWithActualSizes]
    rw [if_neg hknot, hcont, hK]
    refine ⟨_, rfl, ?_⟩
    intro t ht
    obtain ⟨it, hget, hxit, hprim⟩ := placeLoop_paged_invariant lc.marginsMm.left
      lc.spacingMm (Layout.cellWidthMm bs lc) lc.borderWidthMm K hK1 bc.dualMode bs 0
      lc.marginsMm.top 0 0 lc.marginsMm.left (by omega) (by simp) t ht
    refine ⟨it, by simpa using hget, ?_, ?_, ?_⟩
    · rw [hxit, Nat.zero_add]
    · have hrows := placeLoopRows_paged_invariant K hK1 bs 0 0 (by omega) t ht
      simp only [Layout.layoutRows, hcont, hK]
      simpa using hrows
    · intro hd
      rw [hprim, hd, Nat.zero_add]
      simp
  · have hk3 : Layout.columnsPerRowOf
        [(⟨96, 96⟩ : Layout.InputBarcode), ⟨96, 96⟩, ⟨96, 96⟩, ⟨96, 96⟩, ⟨96, 96⟩, ⟨96, 96⟩]
        { canvasWidthCm := 10, continuousMode := false,
          marginsMm := ⟨10, 10, 10, 10⟩, spacingMm := 0, borderWidthMm := 0,
          borderColor := [] } = ((3 : ℕ) : ℤ) := by
      norm_num [Layout.columnsPerRowOf, Layout.cellWidthMm, Layout.maxBarcodeWidthMm,
        Layout.listMax, Layout.internalPaddingMm, Layout.pxToMm, Layout.cmToMm]
    simp only [Layout.layoutRows, hk3]
    decide

/-- Witness for C6 at the concrete six-cell dual batch with three
columns. -/
theorem C6_paged_row_major_witness :
    ∃ lay, Layout.calculateLayoutWithActualSizes
        [⟨96, 96⟩, ⟨96, 96⟩, ⟨96, 96⟩, ⟨96, 96⟩, ⟨96, 96⟩, ⟨96, 96⟩]
        { type := .code128, dimensions := ⟨5, 3, .cm⟩,
          font := { family := [], size := 10 },
          options := { showText := true, stretch := false },
          dualMode := true, dualDimensions := some ⟨3, 2, .cm⟩ }
        { canvasWidthCm := 10, continuousMode := false,
          marginsMm := ⟨10, 10, 10, 10⟩, spacingMm := 0, borderWidthMm := 0,
          borderColor := [] } = .ok lay ∧
      ∀ t, t < ([⟨96, 96⟩, ⟨96, 96⟩, ⟨96, 96⟩, ⟨96, 96⟩, ⟨96, 96⟩,
          (⟨96, 96⟩ : Layout.InputBarcode)]).length → ∃ it, lay.barcodes[t]? = some it ∧
        it.x = 10 + ((t % 3 : ℕ) : ℚ) * Layout.cellWidthMm
            [⟨96, 96⟩, ⟨96, 96⟩, ⟨96, 96⟩, ⟨96, 96⟩, ⟨96, 96⟩, ⟨96, 96⟩]
            { canvasWidthCm := 10, continuousMode := false,
              marginsMm := ⟨10, 10, 10, 10⟩, spacingMm := 0, borderWidthMm := 0,
              borderColor := [] } ∧
        (Layout.layoutRows [⟨96, 96⟩, ⟨96, 96⟩, ⟨96, 96⟩, ⟨96, 96⟩, ⟨96, 96⟩, ⟨96, 96⟩]
            { canvasWidthCm := 10, continuousMode := false,
              marginsMm := ⟨10, 10, 10, 10⟩, spacingMm := 0, borderWidthMm := 0,
              borderColor := [] })[t]? = some (t / 3) ∧
        (({ type := .code128, dimensions := ⟨5, 3, .cm⟩,
            font := { family := [], size := 10 },
            options := { showText := true, stretch := false },
            dualMode := true, dualDimensions := some ⟨3, 2, .cm⟩ }
              : BarcodeConfig).dualMode = true →
          it.isPrimary = decide (t % 2 = 0)) :=
  (C6_paged_row_major
    [⟨96, 96⟩, ⟨96, 96⟩, ⟨96, 96⟩, ⟨96, 96⟩, ⟨96, 96⟩, ⟨96, 96⟩]
    { type := .code128, dimensions := ⟨5, 3, .cm⟩,
      font := { family := [], size := 10 },
      options := { showText := true, stretch := false },
      dualMode := true, dualDimensions := some ⟨3, 2, .cm⟩ }
    { canvasWidthCm := 10, continuousMode := false,
      marginsMm := ⟨10, 10, 10, 10⟩, spacingMm := 0, borderWidthMm := 0,
      borderColor := [] } rfl 3
    (by norm_num [Layout.columnsPerRowOf, Layout.cellWidthMm, Layout.maxBarcodeWidthMm,
      Layout.listMax, Layout.internalPaddingMm, Layout.pxToMm, Layout.cmToMm])
    (by norm_num)).1

/-- C7: with dualMode on and dual dimensions present, and every single
render accepted by the collaborator, the batch renderer emits exactly
two images per data item - twice the item count in total - the primary
at position 2t immediately followed by its secondary at position
2t + 1, the secondary being rendered under the configuration with
dualMode forced to false. -/
theorem C7_dual_mode_interleaving
    (render : JSStr → BarcodeConfig → JSStr → Option Frontend.GeneratedBarcode)
    (ds : List JSStr) (c : BarcodeConfig) (dd : Dimensions)
    (hdual : c.dualMode = true) (hdd : c.dualDimensions = some dd)
    (hrender : ∀ d cfg fn, (render d cfg fn).isSome = true) :
    (Frontend.generateBarcodes render ds c).length = 2 * ds.length ∧
    (Frontend.dualConfigOf c dd).dualMode = false ∧
    ∀ t, t < ds.length →
      ∃ d p s, ds[t]? = some d ∧
        render d c (Frontend.filenameFor d c.dimensions) = some p ∧
        render d (Frontend.dualConfigOf c dd) (Frontend.filenameFor d dd) = some s ∧
        (Frontend.generateBarcodes render ds c)[2 * t]? = some p ∧
        (Frontend.generateBarcodes render ds c)[2 * t + 1]? = some s := by
  have main : ∀ l : List JSStr,
      (Frontend.generateBarcodes render l c).length = 2 * l.length ∧
      ∀ t, t < l.length →
        ∃ d p s, l[t]? = some d ∧
          render d c (Frontend.filenameFor d c.dimensions) = some p ∧
          render d (Frontend.dualConfigOf c dd) (Frontend.filenameFor d dd) = some s ∧
          (Frontend.generateBarcodes render l c)[2 * t]? = some p ∧
          (Frontend.generateBarcodes render l c)[2 * t + 1]? = some s := by
    intro l
    induction l with
    | nil =>
      exact ⟨rfl, fun t ht => absurd ht (by simp)⟩
    | cons d rest ih =>
      obtain ⟨p, hp⟩ := Option.isSome_iff_exists.mp
        (hrender d c (Frontend.filenameFor d c.dimensions))
      obtain ⟨s, hs⟩ := Option.isSome_iff_exists.mp
        (hrender d (Frontend.dualConfigOf c dd) (Frontend.filenameFor d dd))
      have hunfold : Frontend.generateBarcodes render (d :: rest) c
          = p :: s :: Frontend.generateBarcodes render rest c := by
        simp only [Frontend.generateBarcodes, hdual, hdd, hp, hs]
        rfl
      constructor
      · rw [hunfold]
        simp only [List.length_cons, ih.1]
        omega
      · intro t ht
        cases t with
        | zero =>
          refine ⟨d, p, s, by simp, hp, hs, ?_, ?_⟩
          · rw [hunfold]
            simp
          · rw [hunfold]
            simp
        | succ u =>
          obtain ⟨d', p', s', h0, h1, h2, h3, h4⟩ := ih.2 u (by simpa using ht)
          refine ⟨d', p', s', by simpa using h0, h1, h2, ?_, ?_⟩
          · rw [hunfold]
            have h5 : 2 * (u + 1) = 2 * u + 1 + 1 := by omega
            rw [h5, List.getElem?_cons_succ, List.getElem?_cons_succ, h3]
          · rw [hunfold]
            have h5 : 2 * (u + 1) + 1 = (2 * u + 1) + 1 + 1 := by omega
            rw [h5, List.getElem?_cons_succ, List.getElem?_cons_succ, h4]
  exact ⟨(main ds).1, rfl, (main ds).2⟩

/-- Witness for C7 with an always-successful render on two data items. -/
theorem C7_dual_mode_interleaving_witness :
    (Frontend.generateBarcodes (fun _ _ fn => some ⟨[], fn⟩)
        ["11".toList, "22".toList]
        { type := .code128, dimensions := ⟨5, 3, .cm⟩,
          font := { family := [], size := 10 },
          options := { showText := true, stretch := false },
          dualMode := true, dualDimensions := some ⟨3, 2, .cm⟩ }).length
      = 2 * (["11".toList, "22".toList]).length ∧
    (Frontend.dualConfigOf
      { type := .code128, dimensions := ⟨5, 3, .cm⟩,
        font := { family := [], size := 10 },
        options := { showText := true, stretch := false },
        dualMode := true, dualDimensions := some ⟨3, 2, .cm⟩ }
      ⟨3, 2, .cm⟩).dualMode = false :=
  ⟨(C7_dual_mode_interleaving (fun _ _ fn => some ⟨[], fn⟩)
      ["11".toList, "22".toList]
      { type := .code128, dimensions := ⟨5, 3, .cm⟩,
        font := { family := [], size := 10 },
        options := { showText := true, stretch := false },
        dualMode := true, dualDimensions := some ⟨3, 2, .cm⟩ }
      ⟨3, 2, .cm⟩ rfl rfl (fun _ _ _ => rfl)).1,
   (C7_dual_mode_interleaving (fun _ _ fn => some ⟨[], fn⟩)
      ["11".toList, "22".toList]
      { type := .code128, dimensions := ⟨5, 3, .cm⟩,
        font := { family := [], size := 10 },
        options := { showText := true, stretch := false },
        dualMode := true, dualDimensions := some ⟨3, 2, .cm⟩ }
      ⟨3, 2, .cm⟩ rfl rfl (fun _ _ _ => rfl)).2.1⟩

end BulkBarcode
